import Mathlib

/-!
Verification of the staticmap-mcp map-rendering server.

The development shallowly embeds the two core computations of
`src/staticmap_mcp/server.py`:

* `_geo_to_pixel` — the Web Mercator geographic-to-pixel projection
  (modelled over the real numbers; the final Python `int()` conversion
  truncates toward zero and is modelled by `realTrunc`);
* the label-placement block of `render_route_map` — integer pixel
  arithmetic (Python `//` is floor division, modelled by `Int.fdiv`);
* the orchestration of `render_route_map` — validation, basemap
  selection and the per-marker glyph/label decisions, modelled as a
  pure function returning either an error string or a record of the
  drawing work performed.
-/

namespace StaticmapMcp

/-- Truncation toward zero on the reals, the behaviour of Python `int()`
applied to a float. -/
noncomputable def realTrunc (x : ℝ) : ℤ :=
  if 0 ≤ x then ⌊x⌋ else ⌈x⌉

/-- The view state that `staticmap` exposes after `render()`:
zoom level, tile pixel size, tile-space coordinates of the image
center, and the image dimensions. -/
structure ViewState where
  zoom : ℕ
  tileSize : ℝ
  xCenter : ℝ
  yCenter : ℝ
  width : ℕ
  height : ℕ

/-- `x_tile = (lon + 180.0) / 360.0 * n` with `n = 2**zoom`
(server.py line 118). -/
noncomputable def xTile (zoom : ℕ) (lon : ℝ) : ℝ :=
  (lon + 180) / 360 * 2 ^ zoom

/-- `lat_rad = math.radians(lat)` (server.py line 119). -/
noncomputable def latRad (lat : ℝ) : ℝ :=
  lat * Real.pi / 180

/-- `y_tile = (1.0 - log(tan(lat_rad) + 1/cos(lat_rad)) / pi) / 2.0 * n`
(server.py line 120). -/
noncomputable def yTile (zoom : ℕ) (lat : ℝ) : ℝ :=
  (1 - Real.log (Real.tan (latRad lat) + 1 / Real.cos (latRad lat)) / Real.pi) / 2
    * 2 ^ zoom

/-- The real-valued pixel x before the `int()` conversion:
`(x_tile - m.x_center) * tile_size + m.width / 2` (server.py line 123). -/
noncomputable def pixelXReal (m : ViewState) (lon : ℝ) : ℝ :=
  (xTile m.zoom lon - m.xCenter) * m.tileSize + (m.width : ℝ) / 2

/-- The real-valued pixel y before the `int()` conversion:
`(y_tile - m.y_center) * tile_size + m.height / 2` (server.py line 124). -/
noncomputable def pixelYReal (m : ViewState) (lat : ℝ) : ℝ :=
  (yTile m.zoom lat - m.yCenter) * m.tileSize + (m.height : ℝ) / 2

/-- `px = int((x_tile - m.x_center) * tile_size + m.width / 2)`. -/
noncomputable def geoToPixelX (m : ViewState) (lon : ℝ) : ℤ :=
  realTrunc (pixelXReal m lon)

/-- `py = int((y_tile - m.y_center) * tile_size + m.height / 2)`. -/
noncomputable def geoToPixelY (m : ViewState) (lat : ℝ) : ℤ :=
  realTrunc (pixelYReal m lat)

/-- `_geo_to_pixel(m, lon, lat)` returning the `(px, py)` pair. -/
noncomputable def geoToPixel (m : ViewState) (lon lat : ℝ) : ℤ × ℤ :=
  (geoToPixelX m lon, geoToPixelY m lat)

/-- The placement the label-drawing loop computes for one labelled
marker: the text origin and the background rectangle corners. -/
structure LabelPlacement where
  labelX : ℤ
  labelY : ℤ
  boxX0 : ℤ
  boxY0 : ℤ
  boxX1 : ℤ
  boxY1 : ℤ
  deriving DecidableEq, Repr

/-- The label-placement block of `render_route_map`
(server.py lines 85–93):
`label_x = px + 10`; `label_y = py - th // 2`;
`label_x = min(label_x, width - tw - 4)`;
`label_y = max(4, min(label_y, height - th - 4))`;
rectangle `[label_x - 2, label_y - 2, label_x + tw + 2, label_y + th + 2]`.
Python `//` is floor division, so `th // 2` is `Int.fdiv th 2`. -/
def labelLayout (px py tw th width height : ℤ) : LabelPlacement :=
  let lx0 := px + 10
  let ly0 := py - Int.fdiv th 2
  let lx := min lx0 (width - tw - 4)
  let ly := max 4 (min ly0 (height - th - 4))
  ⟨lx, ly, lx - 2, ly - 2, lx + tw + 2, ly + th + 2⟩

/-- `BASEMAPS` (server.py lines 11–16), as the partial lookup that
Python dict `.get` performs. -/
def BASEMAPS : String → Option String
  | "osm" => some "https://a.tile.openstreetmap.org/{z}/{x}/{y}.png"
  | "topo" => some "https://tile.opentopomap.org/{z}/{x}/{y}.png"
  | "cycle" => some "https://a.tile-cyclosm.openstreetmap.fr/cyclosm/{z}/{x}/{y}.png"
  | "humanitarian" => some "https://a.tile.openstreetmap.fr/hot/{z}/{x}/{y}.png"
  | _ => none

/-- `tile_url = BASEMAPS.get(basemap, BASEMAPS["osm"])` (server.py line 45). -/
def tileUrl (basemap : String) : String :=
  (BASEMAPS basemap).getD "https://a.tile.openstreetmap.org/{z}/{x}/{y}.png"

/-- A marker dict `{lon, lat, label}`; any of the keys may be absent.
Python `marker.get("label", "")` is modelled by `Option.getD label ""`. -/
structure Marker where
  lon : Option ℚ
  lat : Option ℚ
  label : Option String
  deriving DecidableEq, Repr

/-- The glyph decision of the first marker loop (server.py lines 54–58):
a red `CircleMarker` is added exactly when both `lon` and `lat` are
present. -/
def drawnGlyph (mk : Marker) : Option (ℚ × ℚ) :=
  match mk.lon, mk.lat with
  | some lo, some la => some (lo, la)
  | _, _ => none

/-- The label decision of the label-drawing loop
(server.py lines 71–76): the loop `continue`s — drawing no text and no
background box — when `lon` or `lat` is missing or the label is falsy
(absent or empty string). -/
def drawnLabel (mk : Marker) : Option ((ℚ × ℚ) × String) :=
  match mk.lon, mk.lat with
  | some lo, some la =>
      if mk.label.getD "" = "" then none else some ((lo, la), mk.label.getD "")
  | _, _ => none

/-- The drawing work a successful render performs: the glyphs added to
the map, the labels drawn over it, and the path the PNG is saved to. -/
structure RenderOutput where
  glyphs : List (ℚ × ℚ)
  labels : List ((ℚ × ℚ) × String)
  tileUrlUsed : String
  savedPath : String
  deriving DecidableEq, Repr

/-- The result of `render_route_map`: either an error string returned
as a value, or a completed render. -/
inductive RenderResult where
  | error (msg : String)
  | ok (out : RenderOutput)
  deriving DecidableEq, Repr

/-- The orchestration of `render_route_map` (server.py lines 42–104):
validate that the coordinate list has at least two entries and
otherwise return the error string before any map object is built; then
select the tile URL, add a glyph per marker with a complete position,
render, draw a label per marker with a complete position and non-empty
label, and save. -/
def renderRouteMap (coordinates : List (ℚ × ℚ)) (outputPath : String)
    (markers : List Marker) (basemap : String) : RenderResult :=
  if coordinates.length < 2 then
    .error "Error: coordinates must contain at least 2 [lon, lat] pairs."
  else
    .ok { glyphs := markers.filterMap drawnGlyph
          labels := markers.filterMap drawnLabel
          tileUrlUsed := tileUrl basemap
          savedPath := outputPath }

/-- A concrete view state for counterexamples: zoom 0, tile size 256,
center tile (0, 0), a 1×1-pixel image. -/
noncomputable def view0 : ViewState := ⟨0, 256, 0, 0, 1, 1⟩

/-- A concrete view state whose center tile (1/2, 1/2) is the
tile-space image of the geographic point (0°, 0°) at zoom 0, with an
800×600 image. -/
noncomputable def viewC8 : ViewState := ⟨0, 256, 1/2, 1/2, 800, 600⟩

/-- Truncation toward zero never moves a nonnegative value by more
than one: for `0 ≤ x`, `|realTrunc x - x| ≤ 1`. -/
theorem realTrunc_near {x : ℝ} (hx : 0 ≤ x) : |(realTrunc x : ℝ) - x| ≤ 1 := by
  rw [realTrunc, if_pos hx, abs_le]
  constructor
  · have h := Int.sub_one_lt_floor x
    linarith
  · have h := Int.floor_le x
    linarith

/-- Truncation toward zero is monotone. -/
theorem realTrunc_mono {x y : ℝ} (h : x ≤ y) : realTrunc x ≤ realTrunc y := by
  unfold realTrunc
  by_cases hx : 0 ≤ x
  · rw [if_pos hx, if_pos (hx.trans h)]
    exact Int.floor_le_floor h
  · rw [if_neg hx]
    by_cases hy : 0 ≤ y
    · rw [if_pos hy]
      have h1 : ⌈x⌉ ≤ 0 := Int.ceil_le.mpr (by push_cast; linarith [lt_of_not_le hx])
      have h2 : 0 ≤ ⌊y⌋ := Int.floor_nonneg.mpr hy
      omega
    · rw [if_neg hy]
      exact Int.ceil_le_ceil h

/-- C3: for every labelled marker, the layout places the text origin at
`anchor.x + 10` and `anchor.y - textHeight/2` (floor division), then
clamps the x origin to at most `width - textWidth - 4` and clamps the y
origin into `[4, height - textHeight - 4]` via `max 4 (min _ _)`
(margin 4px, applied after the default offset), and the background box
is the text extent expanded by exactly 2px on every side. -/
theorem c3_label_layout (px py tw th w h : ℤ) :
    (labelLayout px py tw th w h).labelX = min (px + 10) (w - tw - 4) ∧
    (labelLayout px py tw th w h).labelY
      = max 4 (min (py - Int.fdiv th 2) (h - th - 4)) ∧
    (labelLayout px py tw th w h).boxX0 = (labelLayout px py tw th w h).labelX - 2 ∧
    (labelLayout px py tw th w h).boxY0 = (labelLayout px py tw th w h).labelY - 2 ∧
    (labelLayout px py tw th w h).boxX1
      = (labelLayout px py tw th w h).labelX + tw + 2 ∧
    (labelLayout px py tw th w h).boxY1
      = (labelLayout px py tw th w h).labelY + th + 2 :=
  ⟨rfl, rfl, rfl, rfl, rfl, rfl⟩

/-- C4 counterexample: with an anchor 100px left of the image, a 10px
wide and 10px tall label on an 800×600 image, the background box starts
at x = −92, outside `[0, 800] × [0, 600]`, even though the label width
(10px) does not exceed the image width — the code never clamps the text
origin on the left. -/
theorem c4_counterexample :
    (labelLayout (-100) 0 10 10 800 600).boxX0 = -92 ∧
    (labelLayout (-100) 0 10 10 800 600).boxX0 < 0 ∧
    (10 : ℤ) ≤ 800 := by
  refine ⟨?_, ?_, ?_⟩ <;> decide

/-- C4 amended: the background box lies within `[0, w] × [0, h]`
provided the anchor is at most 8px left of the image (`-8 ≤ px`), the
label fits horizontally with its margin (`tw + 6 ≤ w`), and the text
fits vertically with its margins (`th + 8 ≤ h`); without the first
hypothesis the left edge can be negative (no leftward clamp exists) and
without the third the bottom edge can exceed `h`. -/
theorem c4_amended (px py tw th w h : ℤ)
    (hpx : -8 ≤ px) (hw : tw + 6 ≤ w) (hh : th + 8 ≤ h) :
    0 ≤ (labelLayout px py tw th w h).boxX0 ∧
    (labelLayout px py tw th w h).boxX1 ≤ w ∧
    0 ≤ (labelLayout px py tw th w h).boxY0 ∧
    (labelLayout px py tw th w h).boxY1 ≤ h := by
  simp only [labelLayout]
  omega

/-- C4 amended, witnessed at anchor (0,0), a 10×12 label, 800×600 image. -/
theorem c4_amended_witness :
    (-8 : ℤ) ≤ 0 ∧ (10 : ℤ) + 6 ≤ 800 ∧ (12 : ℤ) + 8 ≤ 600 ∧
    (0 ≤ (labelLayout 0 0 10 12 800 600).boxX0 ∧
     (labelLayout 0 0 10 12 800 600).boxX1 ≤ 800 ∧
     0 ≤ (labelLayout 0 0 10 12 800 600).boxY0 ∧
     (labelLayout 0 0 10 12 800 600).boxY1 ≤ 600) :=
  ⟨by decide, by decide, by decide,
   c4_amended 0 0 10 12 800 600 (by decide) (by decide) (by decide)⟩

/-- C10: for every anchor and text size — including text taller than
the image, where the interval `[4, h - th - 4]` is empty — the label y
origin is at least 4, because the outer `max 4 _` is applied after the
inner `min`, so the background box top edge is at least 2. -/
theorem c10_label_y_lower_bound (px py tw th w h : ℤ) :
    4 ≤ (labelLayout px py tw th w h).labelY ∧
    2 ≤ (labelLayout px py tw th w h).boxY0 := by
  simp only [labelLayout]
  omega

/-- C5: a coordinate list with fewer than two entries makes
`render_route_map` return the error string — a value prefixed
`Error: `, not an exception — as its very first statement, so no
drawing work is recorded and no file is saved. -/
theorem c5_short_route_error (coordinates : List (ℚ × ℚ)) (outputPath : String)
    (markers : List Marker) (basemap : String)
    (hlen : coordinates.length < 2) :
    renderRouteMap coordinates outputPath markers basemap
      = .error "Error: coordinates must contain at least 2 [lon, lat] pairs." ∧
    "Error: coordinates must contain at least 2 [lon, lat] pairs."
      = "Error: " ++ "coordinates must contain at least 2 [lon, lat] pairs." := by
  refine ⟨?_, rfl⟩
  simp [renderRouteMap, hlen]

/-- C5, witnessed on the empty coordinate list. -/
theorem c5_witness :
    ([] : List (ℚ × ℚ)).length < 2 ∧
    (renderRouteMap [] "route.png" [] "osm"
        = .error "Error: coordinates must contain at least 2 [lon, lat] pairs." ∧
     "Error: coordinates must contain at least 2 [lon, lat] pairs."
       = "Error: " ++ "coordinates must contain at least 2 [lon, lat] pairs.") :=
  ⟨by decide, c5_short_route_error [] "route.png" [] "osm" (by decide)⟩

/-- C6: with a valid route, rendering succeeds for any marker list; a
marker missing `lon` or `lat` contributes neither a glyph nor a label
(silently skipped, no error), and a marker with a valid position but an
empty or absent label gets a glyph and no label text. -/
theorem c6_marker_handling (coordinates : List (ℚ × ℚ)) (outputPath : String)
    (markers : List Marker) (basemap : String)
    (mkMissing mkUnlabeled : Marker) (lo la : ℚ)
    (hlen : 2 ≤ coordinates.length)
    (hmiss : mkMissing.lon = none ∨ mkMissing.lat = none)
    (hlo : mkUnlabeled.lon = some lo) (hla : mkUnlabeled.lat = some la)
    (hlab : mkUnlabeled.label.getD "" = "") :
    renderRouteMap coordinates outputPath markers basemap
      = .ok ⟨markers.filterMap drawnGlyph, markers.filterMap drawnLabel,
             tileUrl basemap, outputPath⟩ ∧
    drawnGlyph mkMissing = none ∧ drawnLabel mkMissing = none ∧
    drawnGlyph mkUnlabeled = some (lo, la) ∧ drawnLabel mkUnlabeled = none := by
  refine ⟨?_, ?_, ?_, ?_, ?_⟩
  · simp [renderRouteMap, Nat.not_lt.mpr hlen]
  · rcases hmiss with hm | hm <;> simp [drawnGlyph, hm]
  · rcases hmiss with hm | hm <;> simp [drawnLabel, hm]
  · simp [drawnGlyph, hlo, hla]
  · simp [drawnLabel, hlo, hla, hlab]

/-- C6, witnessed on a two-point route with one marker missing `lat`
and one marker with a position but no label. -/
theorem c6_witness :
    2 ≤ ([((0 : ℚ), (0 : ℚ)), (1, 1)] : List (ℚ × ℚ)).length ∧
    ((Marker.mk (some 5) none (some "A")).lon = none ∨
     (Marker.mk (some 5) none (some "A")).lat = none) ∧
    (Marker.mk (some 1) (some 2) none).lon = some 1 ∧
    (Marker.mk (some 1) (some 2) none).lat = some 2 ∧
    (Marker.mk (some 1) (some 2) none).label.getD "" = "" ∧
    (renderRouteMap [((0 : ℚ), (0 : ℚ)), (1, 1)] "route.png"
        [Marker.mk (some 5) none (some "A"), Marker.mk (some 1) (some 2) none] "osm"
      = .ok ⟨[Marker.mk (some 5) none (some "A"),
              Marker.mk (some 1) (some 2) none].filterMap drawnGlyph,
             [Marker.mk (some 5) none (some "A"),
              Marker.mk (some 1) (some 2) none].filterMap drawnLabel,
             tileUrl "osm", "route.png"⟩ ∧
     drawnGlyph (Marker.mk (some 5) none (some "A")) = none ∧
     drawnLabel (Marker.mk (some 5) none (some "A")) = none ∧
     drawnGlyph (Marker.mk (some 1) (some 2) none) = some (1, 2) ∧
     drawnLabel (Marker.mk (some 1) (some 2) none) = none) :=
  ⟨by decide, Or.inr rfl, rfl, rfl, rfl,
   c6_marker_handling [((0 : ℚ), (0 : ℚ)), (1, 1)] "route.png"
     [Marker.mk (some 5) none (some "A"), Marker.mk (some 1) (some 2) none] "osm"
     (Marker.mk (some 5) none (some "A")) (Marker.mk (some 1) (some 2) none) 1 2
     (by decide) (Or.inr rfl) rfl rfl rfl⟩

/-- C9: each of the four basemap names resolves to its fixed tile-URL
template, and any name outside the enumerated set resolves to the osm
template (a default, not a failure). -/
theorem c9_basemap_selection (b : String)
    (h1 : b ≠ "osm") (h2 : b ≠ "topo") (h3 : b ≠ "cycle")
    (h4 : b ≠ "humanitarian") :
    tileUrl "osm" = "https://a.tile.openstreetmap.org/{z}/{x}/{y}.png" ∧
    tileUrl "topo" = "https://tile.opentopomap.org/{z}/{x}/{y}.png" ∧
    tileUrl "cycle" = "https://a.tile-cyclosm.openstreetmap.fr/cyclosm/{z}/{x}/{y}.png" ∧
    tileUrl "humanitarian" = "https://a.tile.openstreetmap.fr/hot/{z}/{x}/{y}.png" ∧
    tileUrl b = "https://a.tile.openstreetmap.org/{z}/{x}/{y}.png" := by
  refine ⟨rfl, rfl, rfl, rfl, ?_⟩
  unfold tileUrl BASEMAPS
  split
  · exact absurd rfl h1
  · exact absurd rfl h2
  · exact absurd rfl h3
  · exact absurd rfl h4
  · rfl

/-- C9, witnessed at the unrecognized name `satellite`. -/
theorem c9_witness :
    ("satellite" ≠ "osm" ∧ "satellite" ≠ "topo" ∧ "satellite" ≠ "cycle" ∧
     "satellite" ≠ "humanitarian") ∧
    (tileUrl "osm" = "https://a.tile.openstreetmap.org/{z}/{x}/{y}.png" ∧
     tileUrl "topo" = "https://tile.opentopomap.org/{z}/{x}/{y}.png" ∧
     tileUrl "cycle" = "https://a.tile-cyclosm.openstreetmap.fr/cyclosm/{z}/{x}/{y}.png" ∧
     tileUrl "humanitarian" = "https://a.tile.openstreetmap.fr/hot/{z}/{x}/{y}.png" ∧
     tileUrl "satellite" = "https://a.tile.openstreetmap.org/{z}/{x}/{y}.png") :=
  ⟨⟨by decide, by decide, by decide, by decide⟩,
   c9_basemap_selection "satellite" (by decide) (by decide) (by decide) (by decide)⟩

/-- C1 counterexample: on a zoom-0 view with center tile (0, 0), tile
size 256 and a 1-pixel-wide image, longitude 0 gives the pre-pixel
value 128.5; the code yields pixel x 128 (truncation), while the
claimed round-to-nearest would give 129. -/
theorem c1_counterexample :
    geoToPixelX view0 0
      ≠ round ((xTile view0.zoom 0 - view0.xCenter) * view0.tileSize
          + (view0.width : ℝ) / 2) := by
  have hval : (xTile view0.zoom 0 - view0.xCenter) * view0.tileSize
      + ((view0.width : ℕ) : ℝ) / 2 = 257 / 2 := by
    simp only [xTile, view0]
    norm_num
  have h1 : geoToPixelX view0 0 = 128 := by
    rw [geoToPixelX, pixelXReal, hval, realTrunc, if_pos (by norm_num)]
    exact Int.floor_eq_iff.mpr (by norm_num)
  have h2 : round ((257 : ℝ) / 2) = 129 := by
    rw [round_eq]
    have : (257 : ℝ) / 2 + 1 / 2 = 129 := by norm_num
    rw [this]
    exact Int.floor_eq_iff.mpr (by norm_num)
  rw [h1, hval, h2]
  decide

/-- C1 amended: the projection computes the claimed tile-space
formulas, but the final pixel step truncates toward zero (Python
`int()`), it does not round to the nearest integer. -/
theorem c1_amended (m : ViewState) (lon lat : ℝ) :
    geoToPixel m lon lat
      = (realTrunc (((lon + 180) / 360 * 2 ^ m.zoom - m.xCenter) * m.tileSize
            + (m.width : ℝ) / 2),
         realTrunc (((1 - Real.log (Real.tan (lat * Real.pi / 180)
                + 1 / Real.cos (lat * Real.pi / 180)) / Real.pi) / 2 * 2 ^ m.zoom
              - m.yCenter) * m.tileSize + (m.height : ℝ) / 2)) := rfl

/-- C2 counterexample: at the north pole (latitude 90) on the concrete
zoom-0 view, the projection silently returns the pixel pair (128, 128);
no error of any kind is raised and no check precedes the formula. -/
theorem c2_counterexample : geoToPixel view0 0 90 = (128, 128) := by
  have h90 : latRad 90 = Real.pi / 2 := by
    unfold latRad; ring
  have hy : yTile view0.zoom 90 = 1 / 2 := by
    unfold yTile
    rw [h90, Real.tan_pi_div_two, Real.cos_pi_div_two]
    norm_num [Real.log_zero, view0]
  have hx : xTile view0.zoom 0 = 1 / 2 := by
    simp only [xTile, view0]
    norm_num
  unfold geoToPixel geoToPixelX geoToPixelY pixelXReal pixelYReal
  rw [hx, hy]
  have hv : ((1 : ℝ) / 2 - view0.xCenter) * view0.tileSize
      + ((view0.width : ℕ) : ℝ) / 2 = 257 / 2 := by
    simp only [view0]; norm_num
  have hv' : ((1 : ℝ) / 2 - view0.yCenter) * view0.tileSize
      + ((view0.height : ℕ) : ℝ) / 2 = 257 / 2 := by
    simp only [view0]; norm_num
  rw [hv, hv', realTrunc, if_pos (by norm_num)]
  have : ⌊(257 : ℝ) / 2⌋ = 128 := Int.floor_eq_iff.mpr (by norm_num)
  rw [this]

/-- C2 amended: the code contains no pole check: for every view state
and longitude, `_geo_to_pixel` at latitude 90 unconditionally returns a
pixel pair computed from the degenerate formula value (in the
real-valued model the inner expression collapses to junk `2^zoom / 2`;
in floating point it is garbage of the same nature), rather than
failing with a `DomainError`. -/
theorem c2_amended (m : ViewState) (lon : ℝ) :
    geoToPixel m lon 90
      = (geoToPixelX m lon,
         realTrunc (((2 : ℝ) ^ m.zoom / 2 - m.yCenter) * m.tileSize
           + (m.height : ℝ) / 2)) := by
  have h90 : latRad 90 = Real.pi / 2 := by
    unfold latRad; ring
  have hy : yTile m.zoom 90 = (2 : ℝ) ^ m.zoom / 2 := by
    unfold yTile
    rw [h90, Real.tan_pi_div_two, Real.cos_pi_div_two]
    simp [Real.log_zero]
    ring
  unfold geoToPixel geoToPixelY pixelYReal
  rw [hy]

/-- C7 counterexample: pixel x is not strictly increasing in
longitude: on the zoom-0 view, longitudes 0 and 0.1 both map to pixel
x 128, because the final truncation collapses nearby longitudes onto
the same discrete pixel. -/
theorem c7_counterexample :
    (0 : ℝ) < 1 / 10 ∧ geoToPixelX view0 0 = geoToPixelX view0 (1 / 10) := by
  constructor
  · norm_num
  · have h1 : geoToPixelX view0 0 = 128 := by
      rw [geoToPixelX, pixelXReal]
      have hval : (xTile view0.zoom 0 - view0.xCenter) * view0.tileSize
          + ((view0.width : ℕ) : ℝ) / 2 = 257 / 2 := by
        simp only [xTile, view0]
        norm_num
      rw [hval, realTrunc, if_pos (by norm_num)]
      exact Int.floor_eq_iff.mpr (by norm_num)
    have h2 : geoToPixelX view0 (1 / 10) = 128 := by
      rw [geoToPixelX, pixelXReal]
      have hval : (xTile view0.zoom (1 / 10) - view0.xCenter) * view0.tileSize
          + ((view0.width : ℕ) : ℝ) / 2 = 57857 / 450 := by
        simp only [xTile, view0]
        norm_num
      rw [hval, realTrunc, if_pos (by norm_num)]
      exact Int.floor_eq_iff.mpr (by norm_num)
    rw [h1, h2]

/-- C7 amended: for a positive tile size, the real-valued pixel x
before truncation is strictly increasing in longitude, and the final
integer pixel x is monotone nondecreasing. -/
theorem c7_amended (m : ViewState) (lon1 lon2 : ℝ)
    (hts : 0 < m.tileSize) (hlt : lon1 < lon2) :
    pixelXReal m lon1 < pixelXReal m lon2 ∧
    geoToPixelX m lon1 ≤ geoToPixelX m lon2 := by
  have hx : xTile m.zoom lon1 < xTile m.zoom lon2 := by
    unfold xTile
    have h2z : (0 : ℝ) < 2 ^ m.zoom := by positivity
    have hdiv : (lon1 + 180) / 360 < (lon2 + 180) / 360 := by linarith
    exact mul_lt_mul_of_pos_right hdiv h2z
  have hpx : pixelXReal m lon1 < pixelXReal m lon2 := by
    unfold pixelXReal
    have hmul := mul_lt_mul_of_pos_right (sub_lt_sub_right hx m.xCenter) hts
    linarith
  exact ⟨hpx, realTrunc_mono (le_of_lt hpx)⟩

/-- C7 amended, witnessed on the zoom-0 view at longitudes 0 and 1. -/
theorem c7_amended_witness :
    (0 : ℝ) < view0.tileSize ∧ (0 : ℝ) < 1 ∧
    (pixelXReal view0 0 < pixelXReal view0 1 ∧
     geoToPixelX view0 0 ≤ geoToPixelX view0 1) :=
  ⟨by norm_num [view0], by norm_num,
   c7_amended view0 0 1 (by norm_num [view0]) (by norm_num)⟩

/-- C8: projecting a geographic point whose tile-space coordinates
equal the view's own center tile yields a pixel within one pixel of
`(imageWidth/2, imageHeight/2)`. -/
theorem c8_center_roundtrip (m : ViewState) (lon lat : ℝ)
    (hx : xTile m.zoom lon = m.xCenter) (hy : yTile m.zoom lat = m.yCenter) :
    |((geoToPixelX m lon : ℤ) : ℝ) - (m.width : ℝ) / 2| ≤ 1 ∧
    |((geoToPixelY m lat : ℤ) : ℝ) - (m.height : ℝ) / 2| ≤ 1 := by
  have hpx : pixelXReal m lon = (m.width : ℝ) / 2 := by
    rw [pixelXReal, hx]; ring
  have hpy : pixelYReal m lat = (m.height : ℝ) / 2 := by
    rw [pixelYReal, hy]; ring
  constructor
  · rw [geoToPixelX, hpx]
    exact realTrunc_near (by positivity)
  · rw [geoToPixelY, hpy]
    exact realTrunc_near (by positivity)

/-- C8, witnessed on the 800×600 view whose center tile (1/2, 1/2) is
the tile-space image of the geographic point (0°, 0°) at zoom 0. -/
theorem c8_witness :
    xTile viewC8.zoom 0 = viewC8.xCenter ∧
    yTile viewC8.zoom 0 = viewC8.yCenter ∧
    (|((geoToPixelX viewC8 0 : ℤ) : ℝ) - (viewC8.width : ℝ) / 2| ≤ 1 ∧
     |((geoToPixelY viewC8 0 : ℤ) : ℝ) - (viewC8.height : ℝ) / 2| ≤ 1) := by
  have hx : xTile viewC8.zoom 0 = viewC8.xCenter := by
    simp only [xTile, viewC8]
    norm_num
  have hy : yTile viewC8.zoom 0 = viewC8.yCenter := by
    unfold yTile latRad
    simp only [viewC8]
    norm_num [Real.tan_zero, Real.cos_zero, Real.log_one]
  exact ⟨hx, hy, c8_center_roundtrip viewC8 0 0 hx hy⟩

end StaticmapMcp
